import Mathlib

/-
  Verification of the metaheuristic optimizers in
  david-zip/optimization_algorithms against their specification.

  Shallow embedding notes:
  * Python floats are modelled as exact real numbers (ℝ) for the simulated
    annealing class, whose cooling rate involves a real power, and as exact
    rationals (ℚ) for the artificial-bee-colony script, whose claims are
    about finite arithmetic and control flow.
  * Randomness is modelled by explicit input streams: each np.random /
    random call of the source consumes the next element of a stream that is
    a parameter of the embedded function.  A raw uniform draw in an
    interval, np.random.uniform(lb, ub), is modelled as the affine map of a
    raw draw r from [0, 1] (uniformDraw below).
  * Wall-clock time (time.time()) is modelled as an input stream of
    timestamps.
  * The unbounded while loops of the source are embedded with an explicit
    fuel argument; running out of fuel returns the state reached so far
    with zero further iterations, so any real execution prefix is obtained
    at sufficiently large fuel.
-/

open Classical

/-! ## Simulated annealing: src/algorithms/simulated_annealling.py -/

/-- The fields stored by SA.__init__ (lines 30-46 of
simulated_annealling.py). -/
structure SAConfig where
  xlb : ℝ
  xub : ℝ
  ylb : ℝ
  yub : ℝ
  Ti0 : ℝ
  Tf0 : ℝ
  eps0 : ℝ
  maxIter : ℕ
  maxTime : ℝ

/-- Python runtime errors that the embedded constructor can raise. -/
inductive PyError where
  | zeroDivisionError
deriving DecidableEq

/-- np.random.uniform(lb, ub) modelled as the affine image of a raw
uniform draw r in [0, 1]. -/
def uniformDraw (lb ub r : ℝ) : ℝ := lb + r * (ub - lb)

/-- The field assignments of SA.__init__: bounds are normalized with
min/max, and the cooling rate is eps0 = 1 - (Tf/Ti)^(maxIter⁻¹), where
the exponent is the real (Python float) power. -/
noncomputable def sa_config (xB yB : ℝ × ℝ) (Ti Tf : ℝ) (maxIter : ℕ)
    (maxTime : ℝ) : SAConfig :=
  { xlb := min xB.1 xB.2
    xub := max xB.1 xB.2
    ylb := min yB.1 yB.2
    yub := max yB.1 yB.2
    Ti0 := Ti
    Tf0 := Tf
    eps0 := 1 - (Tf / Ti) ^ ((maxIter : ℝ)⁻¹)
    maxIter := maxIter
    maxTime := maxTime }

/-- SA.__init__ with the Python failure behaviour made explicit: the only
ways the constructor can abort are the float division Tf/Ti when Ti = 0
and the integer power maxIter**(-1) when maxIter = 0, both of which raise
ZeroDivisionError; no other validation of the temperatures is performed
(a negative Ti silently yields a complex/ill-defined power in Python,
modelled here by the total real rpow). -/
noncomputable def sa_init (xB yB : ℝ × ℝ) (Ti Tf : ℝ) (maxIter : ℕ)
    (maxTime : ℝ) : Except PyError SAConfig :=
  if Ti = 0 then Except.error PyError.zeroDivisionError
  else if maxIter = 0 then Except.error PyError.zeroDivisionError
  else Except.ok (sa_config xB yB Ti Tf maxIter maxTime)

/-- The incumbent kept in self.best_solution / self.best_value. -/
structure SARun where
  bestX : ℝ
  bestY : ℝ
  bestVal : ℝ

/-- SA._initialize (lines 48-66): draw a uniform random starting point and
evaluate the objective there. -/
noncomputable def sa_initialise (cfg : SAConfig) (f : ℝ → ℝ → ℝ)
    (rawX rawY : ℝ) : SARun :=
  { bestX := uniformDraw cfg.xlb cfg.xub rawX
    bestY := uniformDraw cfg.ylb cfg.yub rawY
    bestVal := f (uniformDraw cfg.xlb cfg.xub rawX)
      (uniformDraw cfg.ylb cfg.yub rawY) }

/-- SA._neighbourhood_search (lines 68-78): a fresh uniform sample over
the whole domain, returned with its objective value. -/
noncomputable def neighbourhood_search (cfg : SAConfig) (f : ℝ → ℝ → ℝ)
    (rawX rawY : ℝ) : ℝ × ℝ × ℝ :=
  (uniformDraw cfg.xlb cfg.xub rawX, uniformDraw cfg.ylb cfg.yub rawY,
    f (uniformDraw cfg.xlb cfg.xub rawX) (uniformDraw cfg.ylb cfg.yub rawY))

/-- SA._find_best (lines 80-95): replace the incumbent when the candidate
improves on it, and otherwise still replace it when the fresh uniform
draw r is below the Metropolis probability exp((best - new)/T). -/
noncomputable def find_best (T nx ny nv r : ℝ) (s : SARun) : SARun :=
  if nv < s.bestVal then { bestX := nx, bestY := ny, bestVal := nv }
  else if r < Real.exp ((s.bestVal - nv) / T) then
    { bestX := nx, bestY := ny, bestVal := nv }
  else s

/-- SA._cooling_schedule (lines 97-103): geometric cooling T * (1 - eps). -/
noncomputable def cooling_schedule (eps T : ℝ) : ℝ := T * (1 - eps)

/-- Result of a run of SA.algorithm: final incumbent, the best_values
list, the iteration count nIter, and the final temperature self.T. -/
structure SAOut where
  state : SARun
  trace : List ℝ
  nIter : ℕ
  Tfinal : ℝ

/-- The while loop of SA.algorithm (lines 122-133): while T > Tf draw a
candidate, run _find_best, cool, and append the current incumbent value
to best_values.  rand i = (rawX, rawY, r) supplies the draws of iteration
i; fuel bounds the number of steps that can still be taken. -/
noncomputable def saLoop (cfg : SAConfig) (f : ℝ → ℝ → ℝ)
    (rand : ℕ → ℝ × ℝ × ℝ) : ℕ → ℝ → SARun → SAOut
  | 0, T, s => { state := s, trace := [], nIter := 0, Tfinal := T }
  | fuel + 1, T, s =>
    if T > cfg.Tf0 then
      let q := rand 0
      let p := neighbourhood_search cfg f q.1 q.2.1
      let s' := find_best T p.1 p.2.1 p.2.2 q.2.2 s
      let rest := saLoop cfg f (fun i => rand (i + 1)) fuel
        (cooling_schedule cfg.eps0 T) s'
      { state := rest.state, trace := s'.bestVal :: rest.trace,
        nIter := rest.nIter + 1, Tfinal := rest.Tfinal }
    else { state := s, trace := [], nIter := 0, Tfinal := T }

/-- SA.algorithm (lines 105-147): initialize, record the initial best
value, run the temperature loop, and return the best_values trace. -/
noncomputable def sa_algorithm (cfg : SAConfig) (f : ℝ → ℝ → ℝ)
    (ir : ℝ × ℝ) (rand : ℕ → ℝ × ℝ × ℝ) (fuel : ℕ) : SAOut :=
  let s0 := sa_initialise cfg f ir.1 ir.2
  let r := saLoop cfg f rand fuel cfg.Ti0 s0
  { state := r.state, trace := s0.bestVal :: r.trace, nIter := r.nIter,
    Tfinal := r.Tfinal }

/-- Result of a run of SA.time_algorithm: final incumbent, best_values,
best_values_time, and nIter. -/
structure SATimeOut where
  state : SARun
  values : List ℝ
  times : List ℝ
  nIter : ℕ

/-- The while loop of SA.time_algorithm (lines 170-184): same per-iteration
body, but looping on elapsed < maxTime and appending one elapsed-time
snapshot (from the clock stream) per iteration next to each best-value
snapshot. -/
noncomputable def saTimeLoop (cfg : SAConfig) (f : ℝ → ℝ → ℝ)
    (rand : ℕ → ℝ × ℝ × ℝ) (clock : ℕ → ℝ) (timeStart : ℝ) :
    ℕ → ℝ → ℝ → SARun → SATimeOut
  | 0, _, _, s => { state := s, values := [], times := [], nIter := 0 }
  | fuel + 1, T, elapsed, s =>
    if elapsed < cfg.maxTime then
      let q := rand 0
      let p := neighbourhood_search cfg f q.1 q.2.1
      let s' := find_best T p.1 p.2.1 p.2.2 q.2.2 s
      let e' := clock 0 - timeStart
      let rest := saTimeLoop cfg f (fun i => rand (i + 1))
        (fun i => clock (i + 1)) timeStart fuel
        (cooling_schedule cfg.eps0 T) e' s'
      { state := rest.state, values := s'.bestVal :: rest.values,
        times := e' :: rest.times, nIter := rest.nIter + 1 }
    else { state := s, values := [], times := [], nIter := 0 }

/-- SA.time_algorithm (lines 149-199): time_start is the first clock
reading; per-iteration clock readings follow in the stream. -/
noncomputable def sa_time_algorithm (cfg : SAConfig) (f : ℝ → ℝ → ℝ)
    (ir : ℝ × ℝ) (rand : ℕ → ℝ × ℝ × ℝ) (clock : ℕ → ℝ) (fuel : ℕ) :
    SATimeOut :=
  let s0 := sa_initialise cfg f ir.1 ir.2
  let r := saTimeLoop cfg f rand (fun i => clock (i + 1)) (clock 0) fuel
    cfg.Ti0 0 s0
  { state := r.state, values := s0.bestVal :: r.values, times := r.times,
    nIter := r.nIter }

/-! ### Basic structural lemmas about the SA loops -/

theorem saLoop_trace_length (cfg : SAConfig) (f : ℝ → ℝ → ℝ)
    (rand : ℕ → ℝ × ℝ × ℝ) (fuel : ℕ) (T : ℝ) (s : SARun) :
    (saLoop cfg f rand fuel T s).trace.length =
      (saLoop cfg f rand fuel T s).nIter := by
  induction fuel generalizing rand T s with
  | zero => simp [saLoop]
  | succ n ih =>
    simp only [saLoop]
    split
    · simp [ih]
    · simp

theorem saTimeLoop_lengths (cfg : SAConfig) (f : ℝ → ℝ → ℝ)
    (rand : ℕ → ℝ × ℝ × ℝ) (clock : ℕ → ℝ) (timeStart : ℝ) (fuel : ℕ)
    (T elapsed : ℝ) (s : SARun) :
    (saTimeLoop cfg f rand clock timeStart fuel T elapsed s).values.length =
        (saTimeLoop cfg f rand clock timeStart fuel T elapsed s).nIter ∧
      (saTimeLoop cfg f rand clock timeStart fuel T elapsed s).times.length =
        (saTimeLoop cfg f rand clock timeStart fuel T elapsed s).nIter := by
  induction fuel generalizing rand clock T elapsed s with
  | zero => simp [saTimeLoop]
  | succ n ih =>
    simp only [saTimeLoop]
    split
    · constructor
      · simp [(ih _ _ _ _ _).1]
      · simp [(ih _ _ _ _ _).2]
    · simp

/-- Claim C7: for every run of SA.algorithm, the returned best_values
sequence has length exactly nIter + 1, and its first element is the value
of the objective at the random starting point, recorded before any search
step. -/
theorem sa_algorithm_trace_shape (cfg : SAConfig) (f : ℝ → ℝ → ℝ)
    (ir : ℝ × ℝ) (rand : ℕ → ℝ × ℝ × ℝ) (fuel : ℕ) :
    (sa_algorithm cfg f ir rand fuel).trace.length =
        (sa_algorithm cfg f ir rand fuel).nIter + 1 ∧
      (sa_algorithm cfg f ir rand fuel).trace.head? =
        some (sa_initialise cfg f ir.1 ir.2).bestVal := by
  constructor
  · simp [sa_algorithm, saLoop_trace_length, Nat.add_comm]
  · simp [sa_algorithm]

/-- Claim C9: for every run of SA.time_algorithm, the elapsed-time trace
is one element shorter than the value trace (one time snapshot per
iteration, parallel to each post-iteration best-value snapshot). -/
theorem sa_time_algorithm_trace_shape (cfg : SAConfig) (f : ℝ → ℝ → ℝ)
    (ir : ℝ × ℝ) (rand : ℕ → ℝ × ℝ × ℝ) (clock : ℕ → ℝ) (fuel : ℕ) :
    (sa_time_algorithm cfg f ir rand clock fuel).times.length + 1 =
        (sa_time_algorithm cfg f ir rand clock fuel).values.length ∧
      (sa_time_algorithm cfg f ir rand clock fuel).values.length =
        (sa_time_algorithm cfg f ir rand clock fuel).nIter + 1 := by
  constructor
  · simp [sa_time_algorithm, (saTimeLoop_lengths cfg f rand _ _ fuel _ _ _).1,
      (saTimeLoop_lengths cfg f rand _ _ fuel _ _ _).2, Nat.add_comm]
  · simp [sa_time_algorithm, (saTimeLoop_lengths cfg f rand _ _ fuel _ _ _).1,
      Nat.add_comm]

/-! ## Artificial bee colony: src/practice/artificial_bee_colony/abc_2.py -/

/-- The objective of abc_2.py (lines 15-19): the Rosenbrock-style
function with a = 20 and b = 100. -/
def abc_f (x y : ℚ) : ℚ := (20 - x) ^ 2 + 100 * (y - x ^ 2) ^ 2

/-- The variables of the termination bookkeeping of abc_2.py:
best_value, old_best_value, end_counter, iter_count, and whether the
while loop has broken. -/
structure ABCTermState where
  best : ℚ
  oldBest : ℚ
  endCounter : ℕ
  iterCount : ℕ
  done : Bool

/-- The end-of-iteration block of abc_2.py (lines 142-173): update the
global best from the population minimum minVal (145-148), compute
abs_diff (151), update end_counter (154-157), advance iter_count (159),
and break when end_counter reaches 10 (172-173).  There is no test of
iter_count in the loop condition or the break. -/
def abcIterEnd (minVal : ℚ) (s : ABCTermState) : ABCTermState :=
  let best' := if minVal < s.best then minVal else s.best
  let old' := if minVal < s.best then s.best else s.oldBest
  let absDiff := old' - best'
  let ec := if best' < 9 / 1000 ∧ absDiff < 1 / 100 then s.endCounter + 1 else 0
  { best := best', oldBest := old', endCounter := ec,
    iterCount := s.iterCount + 1, done := decide (ec = 10) }

/-- The initial values of abc_2.py lines 46-51: best_value = 10,
old_best_value = 11, end_counter = 0, iter_count = 1. -/
def abcStart : ABCTermState :=
  { best := 10, oldBest := 11, endCounter := 0, iterCount := 1, done := false }

/-- n iterations of the while loop viewed through its termination
bookkeeping; mins n is the minimum of employed_bee_solutions after the
three phases of iteration n. -/
def abcRun (mins : ℕ → ℚ) : ℕ → ABCTermState
  | 0 => abcStart
  | n + 1 => abcIterEnd (mins n) (abcRun mins n)

/-- The selection-phase weight of abc_2.py lines 78-80:
value / sum(employed_bee_solutions.values()), with no guard.  The value
none models the non-finite float (NaN or inf) that numpy silently
produces when the denominator is zero; no exception is raised on that
path and no substitute weight is computed. -/
def sol_prob (sols : List ℚ) (v : ℚ) : Option ℚ :=
  if sols.sum = 0 then none else some (v / sols.sum)

/-- The whole sol_prob dictionary, one weight per agent. -/
def solProbs (sols : List ℚ) : List (Option ℚ) := sols.map (sol_prob sols)

/-- The onlooker-phase branch test of abc_2.py line 92: r1 > sol_prob.
A comparison against the non-finite weight produced by a zero-sum
denominator (modelled by none) is False in numpy, so the extra
perturbation step is silently skipped. -/
def onlookerSelected (r1 : ℚ) (p : Option ℚ) : Bool :=
  match p with
  | none => false
  | some q => decide (q < r1)

/-- Modelled from the spec: the uniform-selection fallback that section 7
of the specification requires when the selection weights have zero or
negative sum (each of the n agents gets weight 1/n); absent from the
source. -/
def sol_prob_fallback (sols : List ℚ) (v : ℚ) : ℚ :=
  if sols.sum ≤ 0 then 1 / (sols.length : ℚ) else v / sols.sum

/-- abc_2.py line 22. -/
def beehive_population : ℕ := 100

/-- The upper end of the onlooker draw r1 = random.uniform(0,
1/(beehive_population/2)) at line 89, i.e. 1/50. -/
def onlookerThreshold : ℚ := 1 / ((beehive_population : ℚ) / 2)

/-- The probability that the draw r1 = random.uniform(0, c) of line 89
exceeds a weight p, i.e. the probability that the agent with weight p
receives the additional onlooker perturbation of lines 92-111.  For the
continuous uniform distribution on [0, c] this is (c - clamp(p, 0, c))/c. -/
def uniformGtProb (c p : ℚ) : ℚ := (c - min (max p 0) c) / c

/-- Python min(dict, key=dict.get) over the solution values in insertion
order: the index of the first minimal element (lines 125 and 143). -/
def argminIdx (l : List ℚ) : ℕ :=
  (l.foldl
    (fun acc v =>
      if v < acc.2.2 then (acc.2.1, acc.2.1 + 1, v)
      else (acc.1, acc.2.1 + 1, acc.2.2))
    ((0 : ℕ), (0 : ℕ), l.headD 0)).1

/-- The replacement point built by the scout phase (lines 126-130):
base[i] + r2[i] * (base[i] - new_search[i]) coordinatewise. -/
def scoutNewSolution (base search r2 : ℚ × ℚ) : ℚ × ℚ :=
  (base.1 + r2.1 * (base.1 - search.1), base.2 + r2.2 * (base.2 - search.2))

/-- The body of the scout/abandonment loop of abc_2.py (lines 114-140)
for one agent i: when the agent's abandonment counter exceeds 100, its
position is replaced by a perturbation of the CURRENT population's first
minimum (min_sol_name, recomputed at line 125 from
employed_bee_solutions), its solution value is recomputed, and its
counter is reset to 0; otherwise nothing changes. -/
def scoutStep (f : ℚ → ℚ → ℚ) (search r2 : ℚ × ℚ) (pop : List (ℚ × ℚ))
    (sols : List ℚ) (counters : List ℕ) (i : ℕ) :
    List (ℚ × ℚ) × List ℚ × List ℕ :=
  if 100 < counters.getD i 0 then
    let base := pop.getD (argminIdx sols) (0, 0)
    let ns := scoutNewSolution base search r2
    (pop.set i ns, sols.set i (f ns.1 ns.2), counters.set i 0)
  else (pop, sols, counters)

/-- The whole scout phase: the loop of line 114 over all agents in order,
with the population, solutions and counters updated in place as it goes;
rands i supplies (new_search, r2) for agent i. -/
def scoutPhase (f : ℚ → ℚ → ℚ) (rands : ℕ → (ℚ × ℚ) × (ℚ × ℚ))
    (st : List (ℚ × ℚ) × List ℚ × List ℕ) :
    List (ℚ × ℚ) × List ℚ × List ℕ :=
  (List.range st.1.length).foldl
    (fun acc i => scoutStep f (rands i).1 (rands i).2 acc.1 acc.2.1 acc.2.2 i)
    st

/-! ### Helper lemmas about the ABC embedding -/

theorem abcRun_iterCount (mins : ℕ → ℚ) (n : ℕ) :
    (abcRun mins n).iterCount = n + 1 := by
  induction n with
  | zero => rfl
  | succ n ih => simp only [abcRun, abcIterEnd]; omega

theorem abcRun_stuck (mins : ℕ → ℚ) (h : ∀ n, 9 / 1000 ≤ mins n) :
    ∀ n, 9 / 1000 ≤ (abcRun mins n).best ∧
      (abcRun mins n).endCounter = 0 ∧ (abcRun mins n).done = false := by
  intro n
  induction n with
  | zero => exact ⟨by norm_num [abcRun, abcStart], rfl, rfl⟩
  | succ n ih =>
    have hbest : 9 / 1000 ≤
        (if mins n < (abcRun mins n).best then mins n
          else (abcRun mins n).best) := by
      split
      · exact h n
      · exact ih.1
    have hcond : ¬ ((if mins n < (abcRun mins n).best then mins n
          else (abcRun mins n).best) < 9 / 1000 ∧
        (if mins n < (abcRun mins n).best then (abcRun mins n).best
          else (abcRun mins n).oldBest) -
          (if mins n < (abcRun mins n).best then mins n
            else (abcRun mins n).best) < 1 / 100) := by
      intro hc
      exact absurd hc.1 (not_lt.2 hbest)
    refine ⟨?_, ?_, ?_⟩
    · show 9 / 1000 ≤ (abcIterEnd (mins n) (abcRun mins n)).best
      simpa only [abcIterEnd] using hbest
    · show (abcIterEnd (mins n) (abcRun mins n)).endCounter = 0
      simp only [abcIterEnd]
      rw [if_neg hcond]
    · show (abcIterEnd (mins n) (abcRun mins n)).done = false
      simp only [abcIterEnd]
      rw [if_neg hcond]
      rfl

/-! ## Claims C1, C2, C3 -/

/-- Claim C1 counterexample: a complete run of SA.algorithm on a valid
configuration (xBounds [0,1], yBounds [0,0], Ti = 1 > Tf = 1/2 > 0,
maxIter = 1, so eps0 = 1/2) with objective f(x,y) = x, initial draw at
x = 0, and one iteration drawing the candidate x = 1 with Metropolis
draw r = 0: since 0 < exp((0-1)/1), the worse candidate is accepted into
best_value, and the returned trace is [0, 1], which is not
non-increasing. -/
theorem sa_trace_can_regress_cex :
    ¬ List.Chain' (fun a b : ℝ => b ≤ a)
      (sa_algorithm (sa_config (0, 1) (0, 0) 1 (1 / 2) 1 100)
        (fun x _ => x) (0, 0) (fun _ => (1, 0, 0)) 2).trace := by
  have hcfg : sa_config ((0 : ℝ), 1) ((0 : ℝ), 0) 1 (1 / 2) 1 100 =
      { xlb := 0, xub := 1, ylb := 0, yub := 0, Ti0 := 1, Tf0 := 1 / 2,
        eps0 := 1 / 2, maxIter := 1, maxTime := 100 } := by
    simp only [sa_config, SAConfig.mk.injEq]
    norm_num [min_def, max_def, Real.rpow_one]
  have htrace : (sa_algorithm (sa_config (0, 1) (0, 0) 1 (1 / 2) 1 100)
      (fun x _ => x) (0, 0) (fun _ => (1, 0, 0)) 2).trace = [0, 1] := by
    rw [hcfg]
    simp only [sa_algorithm, saLoop, sa_initialise, neighbourhood_search,
      find_best, cooling_schedule, uniformDraw]
    norm_num [Real.exp_pos]
  rw [htrace]
  simp only [List.chain'_cons, List.chain'_singleton, and_true]
  norm_num

/-- Claim C1 (amended): the colony optimizer's tracked global best is
non-increasing across iterations; the annealing optimizer's recorded
value either does not increase in a step or is replaced by the candidate
value through the Metropolis branch (which fires exactly when the
candidate does not improve on the incumbent and the uniform draw r is
below exp((best - new)/T)), and in that case the recorded value can
exceed its predecessor, because the single best_value variable is both
the incumbent and the recorded best. -/
theorem recorded_best_monotonicity :
    (∀ (mins : ℕ → ℚ) (n : ℕ),
        (abcRun mins (n + 1)).best ≤ (abcRun mins n).best) ∧
      ∀ (T nx ny nv r : ℝ) (s : SARun),
        (find_best T nx ny nv r s).bestVal ≤ s.bestVal ∨
          ((find_best T nx ny nv r s).bestVal = nv ∧ ¬ nv < s.bestVal ∧
            r < Real.exp ((s.bestVal - nv) / T)) := by
  constructor
  · intro mins n
    show (abcIterEnd (mins n) (abcRun mins n)).best ≤ (abcRun mins n).best
    simp only [abcIterEnd]
    split
    · next h => exact le_of_lt h
    · exact le_refl _
  · intro T nx ny nv r s
    unfold find_best
    split
    · next h => exact Or.inl (le_of_lt h)
    · next h =>
      split
      · next h2 => exact Or.inr ⟨rfl, h, h2⟩
      · exact Or.inl (le_refl _)

/-- Claim C2 counterexample: with every per-iteration population minimum
equal to 400 (the value of the script's objective at (0,0)), the loop is
still running after 150000 iterations - far beyond the documented
maximum-iteration ceiling of 100000 - because the break condition tests
only end_counter, which requires best_value < 0.009; there is no
maximum-iteration termination at all. -/
theorem abc_no_iteration_cap_cex :
    (abcRun (fun _ => 400) 150000).done = false ∧
      (abcRun (fun _ => 400) 150000).iterCount = 150001 :=
  ⟨(abcRun_stuck (fun _ => 400) (fun _ => by norm_num) 150000).2.2,
    abcRun_iterCount (fun _ => 400) 150000⟩

/-- Claim C2 (amended): the colony loop has no maximum-iteration stop;
it terminates only via the convergence criterion (end_counter reaching
10, which requires best_value < 0.009 and abs_diff < 0.01 for 10
consecutive iterations).  In particular, on any run whose per-iteration
population minima never fall below 0.009 the loop never breaks: after n
iterations, for every n, the loop is still running with iter_count =
n + 1. -/
theorem abc_terminates_only_by_convergence (mins : ℕ → ℚ)
    (h : ∀ n, 9 / 1000 ≤ mins n) :
    ∀ n, (abcRun mins n).done = false ∧ (abcRun mins n).endCounter = 0 ∧
      (abcRun mins n).iterCount = n + 1 := by
  intro n
  exact ⟨(abcRun_stuck mins h n).2.2, (abcRun_stuck mins h n).2.1,
    abcRun_iterCount mins n⟩

/-- Witness for the amended C2 theorem at the constant stream 400 and
n = 7. -/
theorem abc_terminates_only_by_convergence_witness :
    (∀ _n : ℕ, (9 : ℚ) / 1000 ≤ 400) ∧
      ((abcRun (fun _ => 400) 7).done = false ∧
        (abcRun (fun _ => 400) 7).endCounter = 0 ∧
        (abcRun (fun _ => 400) 7).iterCount = 8) :=
  ⟨fun _ => by norm_num,
    abc_terminates_only_by_convergence (fun _ => 400) (fun _ => by norm_num) 7⟩

/-- Claim C3 counterexample: constructing SA with Ti = 1/2 and Tf = 1
(so Ti ≤ Tf with Ti > 0) succeeds silently, returning the configured
object instead of failing fast with a diagnostic. -/
theorem sa_init_no_validation_cex :
    sa_init ((0 : ℝ), 1) ((0 : ℝ), 1) (1 / 2) 1 1000 100 =
        Except.ok (sa_config ((0 : ℝ), 1) ((0 : ℝ), 1) (1 / 2) 1 1000 100) ∧
      (0 : ℝ) < 1 / 2 ∧ (1 / 2 : ℝ) ≤ 1 := by
  refine ⟨?_, by norm_num, by norm_num⟩
  simp only [sa_init]
  rw [if_neg (by norm_num : ¬ (1 / 2 : ℝ) = 0),
    if_neg (by norm_num : ¬ (1000 : ℕ) = 0)]

/-- Claim C3 (amended): SA.__init__ performs no temperature validation.
For every Ti ≠ 0 (and maxIter ≠ 0) construction succeeds with no
diagnostic; in particular for 0 < Ti ≤ Tf it silently stores a
non-positive cooling rate eps0 ≤ 0 (so the search degenerates instead of
erroring).  The only failing configuration input is Ti = 0, which
aborts with an unguarded ZeroDivisionError from computing Tf/Ti, not a
clear configuration-time diagnostic. -/
theorem sa_init_silent_on_bad_temperatures (xB yB : ℝ × ℝ) (Ti Tf : ℝ)
    (maxIter : ℕ) (maxTime : ℝ) (hTi : Ti ≠ 0) (hm : maxIter ≠ 0) :
    sa_init xB yB Ti Tf maxIter maxTime =
        Except.ok (sa_config xB yB Ti Tf maxIter maxTime) ∧
      (0 < Ti → Ti ≤ Tf → (sa_config xB yB Ti Tf maxIter maxTime).eps0 ≤ 0) ∧
      sa_init xB yB 0 Tf maxIter maxTime =
        Except.error PyError.zeroDivisionError := by
  refine ⟨?_, ?_, ?_⟩
  · simp only [sa_init]
    rw [if_neg hTi, if_neg hm]
  · intro h0 hle
    simp only [sa_config]
    have h1 : (1 : ℝ) ≤ Tf / Ti := (one_le_div h0).mpr hle
    have h2 : (1 : ℝ) ≤ (Tf / Ti) ^ ((maxIter : ℝ)⁻¹) :=
      Real.one_le_rpow h1 (by positivity)
    linarith
  · simp [sa_init]

/-- Witness for the amended C3 theorem at Ti = 1, Tf = 2, maxIter = 1. -/
theorem sa_init_silent_on_bad_temperatures_witness :
    ((1 : ℝ) ≠ 0) ∧ ((1 : ℕ) ≠ 0) ∧
      (sa_init ((0 : ℝ), 1) ((0 : ℝ), 1) 1 2 1 100 =
          Except.ok (sa_config ((0 : ℝ), 1) ((0 : ℝ), 1) 1 2 1 100) ∧
        ((0 : ℝ) < 1 → (1 : ℝ) ≤ 2 →
          (sa_config ((0 : ℝ), 1) ((0 : ℝ), 1) 1 2 1 100).eps0 ≤ 0) ∧
        sa_init ((0 : ℝ), 1) ((0 : ℝ), 1) 0 2 1 100 =
          Except.error PyError.zeroDivisionError) :=
  ⟨by norm_num, by norm_num,
    sa_init_silent_on_bad_temperatures ((0 : ℝ), 1) ((0 : ℝ), 1) 1 2 1 100
      (by norm_num) (by norm_num)⟩

/-! ## Claims C4, C5, C8 -/

/-- Claim C4 counterexample: when both agents' objective values are 0
(the spec's own degenerate scenario: an objective that returns 0 at a
sampled point), the denominator sum is 0 and the weight computation
produces the silent non-finite float (none) for every agent - neither a
descriptive error nor the uniform fallback weight 1/2 that the
specification requires. -/
theorem sol_prob_zero_sum_cex :
    solProbs [0, 0] = [none, none] ∧ sol_prob [0, 0] 0 = none ∧
      sol_prob_fallback [0, 0] 0 = 1 / 2 ∧
      (none : Option ℚ) ≠ some (1 / 2) := by
  refine ⟨?_, ?_, ?_, ?_⟩
  · simp [solProbs, sol_prob]
  · simp [sol_prob]
  · norm_num [sol_prob_fallback]
  · simp

/-- Claim C4 (amended): the selection phase performs no zero-sum or
negative-sum detection.  When the objective values sum to zero, every
agent's weight is the silent non-finite float value produced by the
unguarded division (modelled by none), no error is raised, and the
onlooker comparison r1 > weight is then False for every draw, so the
extra onlooker step is silently skipped; when the sum is nonzero the
weight is the raw quotient value/sum, again with no guard. -/
theorem sol_prob_no_zero_sum_handling (sols : List ℚ) (v r1 : ℚ) :
    (sols.sum = 0 → sol_prob sols v = none ∧
        onlookerSelected r1 (sol_prob sols v) = false) ∧
      (sols.sum ≠ 0 → sol_prob sols v = some (v / sols.sum)) := by
  constructor
  · intro h
    constructor
    · simp [sol_prob, h]
    · simp [sol_prob, h, onlookerSelected]
  · intro h
    simp [sol_prob, h]

/-- Witness for the amended C4 theorem at the all-zero population. -/
theorem sol_prob_no_zero_sum_handling_witness :
    List.sum [(0 : ℚ), 0] = 0 ∧ sol_prob [0, 0] 5 = none ∧
      onlookerSelected (1 / 100) (sol_prob [0, 0] 5) = false := by
  have h0 : List.sum [(0 : ℚ), 0] = 0 := by simp
  exact ⟨h0, ((sol_prob_no_zero_sum_handling [0, 0] 5 (1 / 100)).1 h0).1,
    ((sol_prob_no_zero_sum_handling [0, 0] 5 (1 / 100)).1 h0).2⟩

theorem uniformGtProb_anti (c p q : ℚ) (hc : 0 < c) (hpq : p ≤ q) :
    uniformGtProb c q ≤ uniformGtProb c p := by
  unfold uniformGtProb
  have h1 : max p 0 ≤ max q 0 := max_le_max hpq le_rfl
  have h2 : min (max p 0) c ≤ min (max q 0) c := min_le_min h1 le_rfl
  exact (div_le_div_iff_of_pos_right hc).mpr (by linarith)

theorem uniformGtProb_strict (c p q : ℚ) (hc : 0 < c) (hp0 : 0 ≤ p)
    (hpc : p < c) (hpq : p < q) :
    uniformGtProb c q < uniformGtProb c p := by
  unfold uniformGtProb
  have hmp : min (max p 0) c = p := by
    rw [max_eq_left hp0, min_eq_left (le_of_lt hpc)]
  have hmq : p < min (max q 0) c :=
    lt_min (lt_of_lt_of_le hpq (le_max_left q 0)) hpc
  rw [hmp]
  exact (div_lt_div_iff_of_pos_right hc).mpr (by linarith)

/-- Claim C5 (amended): since the onlooker test of line 92 performs the
extra perturbation when the draw r1 EXCEEDS the agent's weight, and
weights are proportional to objective values, an agent with a better
(lower) objective value is at least as likely to receive the additional
onlooker step as one with a worse value, and strictly more likely
exactly when the better agent's weight lies below the top of the draw
range 1/(beehive_population/2) = 1/50; two agents whose weights both
reach 1/50 are each reselected with probability 0, so strictness can
fail. -/
theorem onlooker_better_at_least_as_likely (sols : List ℚ) (vi vj : ℚ)
    (hs : 0 < sols.sum) (hvi : 0 ≤ vi) (hij : vi ≤ vj) :
    sol_prob sols vi = some (vi / sols.sum) ∧
      uniformGtProb onlookerThreshold (vj / sols.sum) ≤
        uniformGtProb onlookerThreshold (vi / sols.sum) ∧
      (vi < vj → vi / sols.sum < onlookerThreshold →
        uniformGtProb onlookerThreshold (vj / sols.sum) <
          uniformGtProb onlookerThreshold (vi / sols.sum)) := by
  have hc : (0 : ℚ) < onlookerThreshold := by
    norm_num [onlookerThreshold, beehive_population]
  refine ⟨?_, ?_, ?_⟩
  · simp [sol_prob, ne_of_gt hs]
  · exact uniformGtProb_anti _ _ _ hc ((div_le_div_iff_of_pos_right hs).mpr hij)
  · intro hlt hthr
    exact uniformGtProb_strict _ _ _ hc (div_nonneg hvi (le_of_lt hs)) hthr
      ((div_lt_div_iff_of_pos_right hs).mpr hlt)

/-- Witness for the amended C5 theorem at sols = [1, 2, 3], vi = 1,
vj = 2. -/
theorem onlooker_better_at_least_as_likely_witness :
    ((0 : ℚ) < List.sum [1, 2, 3]) ∧ ((0 : ℚ) ≤ 1) ∧ ((1 : ℚ) ≤ 2) ∧
      (sol_prob [1, 2, 3] 1 = some (1 / List.sum [1, 2, 3]) ∧
        uniformGtProb onlookerThreshold (2 / List.sum [1, 2, 3]) ≤
          uniformGtProb onlookerThreshold (1 / List.sum [1, 2, 3]) ∧
        ((1 : ℚ) < 2 → 1 / List.sum [1, 2, 3] < onlookerThreshold →
          uniformGtProb onlookerThreshold (2 / List.sum [1, 2, 3]) <
            uniformGtProb onlookerThreshold (1 / List.sum [1, 2, 3]))) :=
  ⟨by norm_num, by norm_num, by norm_num,
    onlooker_better_at_least_as_likely [1, 2, 3] 1 2 (by norm_num)
      (by norm_num) (by norm_num)⟩

/-- Claim C5 counterexample: in the 50-agent population with values 200,
100 and 48 zeros, the weights of the two nonzero agents are 2/3 and 1/3,
both at least the draw bound 1/50, so both are reselected with
probability 0: the agent with the strictly better value 100 is NOT more
likely to be reselected than the agent with the worse value 200. -/
theorem onlooker_not_strictly_more_likely_cex :
    ((200 : ℚ) :: 100 :: List.replicate 48 0).length = 50 ∧
      ((200 : ℚ) :: 100 :: List.replicate 48 0).sum = 300 ∧
      sol_prob ((200 : ℚ) :: 100 :: List.replicate 48 0) 100 = some (1 / 3) ∧
      sol_prob ((200 : ℚ) :: 100 :: List.replicate 48 0) 200 = some (2 / 3) ∧
      (100 : ℚ) < 200 ∧
      uniformGtProb onlookerThreshold (1 / 3) = 0 ∧
      uniformGtProb onlookerThreshold (2 / 3) = 0 ∧
      ¬ (uniformGtProb onlookerThreshold (2 / 3) <
          uniformGtProb onlookerThreshold (1 / 3)) := by
  have hsum : ((200 : ℚ) :: 100 :: List.replicate 48 0).sum = 300 := by
    norm_num [List.sum_replicate]
  refine ⟨by simp, hsum, ?_, ?_, by norm_num, ?_, ?_, ?_⟩
  · rw [sol_prob, hsum]
    norm_num
  · rw [sol_prob, hsum]
    norm_num
  · norm_num [uniformGtProb, onlookerThreshold, beehive_population,
      min_def, max_def]
  · norm_num [uniformGtProb, onlookerThreshold, beehive_population,
      min_def, max_def]
  · norm_num [uniformGtProb, onlookerThreshold, beehive_population,
      min_def, max_def]

/-- Claim C8 counterexample: a scout-phase state in which the tracked
global best (best_sol = (20, 400) with best_value = abc_f 20 400 = 0) is
no longer present in the population - its agent was previously
scout-replaced by the worse point (0, 0) with value abc_f 0 0 = 400 and
has stagnated since.  With draws new_search = (0, 0) and r2 = (0, 0),
the triggered agent is replaced by exactly the current population
minimum (0, 0), whereas a perturbation of the global best with the same
draws would be (20, 400): the replacement is NOT a perturbation of the
global best. -/
theorem scout_not_global_best_cex :
    (scoutStep abc_f (0, 0) (0, 0) [(0, 0)] [400] [101] 0).1 =
        [((0 : ℚ), (0 : ℚ))] ∧
      scoutNewSolution (20, 400) (0, 0) (0, 0) = ((20 : ℚ), (400 : ℚ)) ∧
      abc_f 0 0 = 400 ∧ abc_f 20 400 = 0 ∧
      (((0 : ℚ), (0 : ℚ))) ≠ (((20 : ℚ), (400 : ℚ))) := by
  refine ⟨?_, ?_, ?_, ?_, ?_⟩
  · norm_num [scoutStep, argminIdx, scoutNewSolution, List.getD]
  · norm_num [scoutNewSolution]
  · norm_num [abc_f]
  · norm_num [abc_f]
  · norm_num [Prod.ext_iff]

/-- Claim C8 (amended): in the abandonment phase, an agent whose
stagnation counter exceeds 100 has its position replaced by a
perturbation of the first minimum of the CURRENT population's solution
values (min_sol_name, recomputed inside the scout loop), which need not
be the separately tracked global best; its solution value is recomputed
at the new point, and its stagnation counter is reset to zero. -/
theorem scout_replaces_with_population_min (f : ℚ → ℚ → ℚ)
    (search r2 : ℚ × ℚ) (pop : List (ℚ × ℚ)) (sols : List ℚ)
    (counters : List ℕ) (i : ℕ) (hi : i < pop.length)
    (hs : i < sols.length) (hc : i < counters.length)
    (ht : 100 < counters.getD i 0) :
    (scoutStep f search r2 pop sols counters i).1.getD i (0, 0) =
        scoutNewSolution (pop.getD (argminIdx sols) (0, 0)) search r2 ∧
      (scoutStep f search r2 pop sols counters i).2.1.getD i 0 =
        f (scoutNewSolution (pop.getD (argminIdx sols) (0, 0)) search r2).1
          (scoutNewSolution (pop.getD (argminIdx sols) (0, 0)) search r2).2 ∧
      (scoutStep f search r2 pop sols counters i).2.2.getD i 1 = 0 := by
  unfold scoutStep
  rw [if_pos ht]
  refine ⟨?_, ?_, ?_⟩
  · simp [List.getD, List.getElem?_set_eq_of_lt _ hi]
  · simp [List.getD, List.getElem?_set_eq_of_lt _ hs]
  · simp [List.getD, List.getElem?_set_eq_of_lt _ hc]

/-- Witness for the amended C8 theorem at a one-agent population. -/
theorem scout_replaces_with_population_min_witness :
    ((0 : ℕ) < 1) ∧ (100 < [101].getD 0 0) ∧
      ((scoutStep abc_f (3, 4) (1, 2) [((0 : ℚ), (0 : ℚ))] [400] [101] 0).1.getD
          0 (0, 0) =
        scoutNewSolution ([((0 : ℚ), (0 : ℚ))].getD (argminIdx [400]) (0, 0))
          (3, 4) (1, 2) ∧
      (scoutStep abc_f (3, 4) (1, 2) [((0 : ℚ), (0 : ℚ))] [400] [101] 0).2.1.getD
          0 0 =
        abc_f (scoutNewSolution ([((0 : ℚ), (0 : ℚ))].getD (argminIdx [400])
            (0, 0)) (3, 4) (1, 2)).1
          (scoutNewSolution ([((0 : ℚ), (0 : ℚ))].getD (argminIdx [400]) (0, 0))
            (3, 4) (1, 2)).2 ∧
      (scoutStep abc_f (3, 4) (1, 2) [((0 : ℚ), (0 : ℚ))] [400] [101] 0).2.2.getD
          0 1 = 0) :=
  ⟨by norm_num, by norm_num,
    scout_replaces_with_population_min abc_f (3, 4) (1, 2)
      [((0 : ℚ), (0 : ℚ))] [400] [101] 0 (by norm_num) (by norm_num)
      (by norm_num) (by norm_num)⟩

/-! ## Claim C6: the temperature loop runs exactly maxIter iterations -/

theorem cooling_schedule_pow (eps T : ℝ) (k : ℕ) :
    cooling_schedule eps T * (1 - eps) ^ k = T * (1 - eps) ^ (k + 1) := by
  rw [cooling_schedule, pow_succ]
  ring

theorem saLoop_count (cfg : SAConfig) (f : ℝ → ℝ → ℝ) (n : ℕ) :
    ∀ (fuel : ℕ) (T : ℝ) (s : SARun) (rand : ℕ → ℝ × ℝ × ℝ),
      n ≤ fuel →
      (∀ k, k < n → cfg.Tf0 < T * (1 - cfg.eps0) ^ k) →
      T * (1 - cfg.eps0) ^ n ≤ cfg.Tf0 →
      (saLoop cfg f rand fuel T s).nIter = n ∧
        (saLoop cfg f rand fuel T s).Tfinal = T * (1 - cfg.eps0) ^ n := by
  induction n with
  | zero =>
    intro fuel T s rand _ _ hle
    simp only [pow_zero, mul_one] at hle
    cases fuel with
    | zero => simp [saLoop]
    | succ fl =>
      simp only [saLoop]
      rw [if_neg (not_lt.2 hle)]
      simp
  | succ n ih =>
    intro fuel T s rand hfuel hlt hle
    cases fuel with
    | zero => exact absurd hfuel (by omega)
    | succ fl =>
      have hT : cfg.Tf0 < T := by simpa using hlt 0 (by omega)
      have hlt' : ∀ k, k < n →
          cfg.Tf0 < cooling_schedule cfg.eps0 T * (1 - cfg.eps0) ^ k := by
        intro k hk
        rw [cooling_schedule_pow]
        exact hlt (k + 1) (by omega)
      have hle' : cooling_schedule cfg.eps0 T * (1 - cfg.eps0) ^ n ≤
          cfg.Tf0 := by
        rw [cooling_schedule_pow]
        exact hle
      simp only [saLoop]
      rw [if_pos hT]
      constructor
      · rw [(ih fl (cooling_schedule cfg.eps0 T) _ (fun i => rand (i + 1))
          (by omega) hlt' hle').1]
      · rw [(ih fl (cooling_schedule cfg.eps0 T) _ (fun i => rand (i + 1))
          (by omega) hlt' hle').2, cooling_schedule_pow]

/-- Claim C6: for Ti > Tf > 0 and maxIter >= 1, SA.algorithm with the
constructor-derived cooling rate eps0 = 1 - (Tf/Ti)^(1/maxIter) and
geometric update T := T * (1 - eps0) executes exactly maxIter iterations
(in exact real arithmetic; the claim's plus-or-minus-one slack covers
floating-point rounding), and on exit the final temperature satisfies
T <= Tf. -/
theorem sa_algorithm_runs_exactly_maxIter (xB yB : ℝ × ℝ) (Ti Tf : ℝ)
    (maxIter : ℕ) (maxTime : ℝ) (f : ℝ → ℝ → ℝ) (ir : ℝ × ℝ)
    (rand : ℕ → ℝ × ℝ × ℝ) (fuel : ℕ) (hTf : 0 < Tf) (hTi : Tf < Ti)
    (hm : 1 ≤ maxIter) (hfuel : maxIter ≤ fuel) :
    (sa_algorithm (sa_config xB yB Ti Tf maxIter maxTime) f ir
        rand fuel).nIter = maxIter ∧
      (sa_algorithm (sa_config xB yB Ti Tf maxIter maxTime) f ir
        rand fuel).Tfinal ≤ Tf := by
  set cfg := sa_config xB yB Ti Tf maxIter maxTime with hcfg
  have hTf0 : cfg.Tf0 = Tf := by simp [hcfg, sa_config]
  have hTiF : cfg.Ti0 = Ti := by simp [hcfg, sa_config]
  have hq : (1 : ℝ) - cfg.eps0 = (Tf / Ti) ^ ((maxIter : ℝ)⁻¹) := by
    simp [hcfg, sa_config]
  have hTi0 : (0 : ℝ) < Ti := lt_trans hTf hTi
  have hratio0 : 0 < Tf / Ti := div_pos hTf hTi0
  have hratio1 : Tf / Ti < 1 := (div_lt_one hTi0).mpr hTi
  have hmR : (0 : ℝ) < (maxIter : ℝ) := by
    exact_mod_cast Nat.lt_of_lt_of_le Nat.zero_lt_one hm
  have hq0 : 0 < 1 - cfg.eps0 := by
    rw [hq]
    exact Real.rpow_pos_of_pos hratio0 _
  have hq1 : 1 - cfg.eps0 < 1 := by
    rw [hq]
    exact Real.rpow_lt_one (le_of_lt hratio0) hratio1 (inv_pos.mpr hmR)
  have hqm : (1 - cfg.eps0) ^ maxIter = Tf / Ti := by
    rw [hq]
    exact Real.rpow_inv_natCast_pow (le_of_lt hratio0) (by omega)
  have hTiTf : Ti * (Tf / Ti) = Tf := by
    field_simp
  have hstop : Ti * (1 - cfg.eps0) ^ maxIter ≤ cfg.Tf0 := by
    rw [hqm, hTiTf, hTf0]
  have hbefore : ∀ k, k < maxIter → cfg.Tf0 < Ti * (1 - cfg.eps0) ^ k := by
    intro k hk
    have h1 : (1 - cfg.eps0) ^ maxIter < (1 - cfg.eps0) ^ k :=
      pow_lt_pow_right_of_lt_one₀ hq0 hq1 hk
    have h2 : Ti * (1 - cfg.eps0) ^ maxIter < Ti * (1 - cfg.eps0) ^ k :=
      (mul_lt_mul_left hTi0).mpr h1
    rw [hTf0]
    calc Tf = Ti * (Tf / Ti) := hTiTf.symm
    _ = Ti * (1 - cfg.eps0) ^ maxIter := by rw [hqm]
    _ < Ti * (1 - cfg.eps0) ^ k := h2
  have hmain := saLoop_count cfg f maxIter fuel Ti
    (sa_initialise cfg f ir.1 ir.2) rand hfuel hbefore hstop
  constructor
  · show (sa_algorithm cfg f ir rand fuel).nIter = maxIter
    simp only [sa_algorithm]
    rw [hTiF]
    exact hmain.1
  · show (sa_algorithm cfg f ir rand fuel).Tfinal ≤ Tf
    simp only [sa_algorithm]
    rw [hTiF, hmain.2, hqm, hTiTf]

/-- Witness for the C6 theorem at Ti = 1, Tf = 1/2, maxIter = 1,
fuel = 2. -/
theorem sa_algorithm_runs_exactly_maxIter_witness :
    ((0 : ℝ) < 1 / 2) ∧ ((1 / 2 : ℝ) < 1) ∧ (1 ≤ 1) ∧ (1 ≤ 2) ∧
      ((sa_algorithm (sa_config (0, 1) (0, 1) 1 (1 / 2) 1 100)
          (fun _ _ => 0) (0, 0) (fun _ => (0, 0, 0)) 2).nIter = 1 ∧
        (sa_algorithm (sa_config (0, 1) (0, 1) 1 (1 / 2) 1 100)
          (fun _ _ => 0) (0, 0) (fun _ => (0, 0, 0)) 2).Tfinal ≤ 1 / 2) :=
  ⟨by norm_num, by norm_num, le_rfl, by norm_num,
    sa_algorithm_runs_exactly_maxIter (0, 1) (0, 1) 1 (1 / 2) 1 100
      (fun _ _ => 0) (0, 0) (fun _ => (0, 0, 0)) 2 (by norm_num)
      (by norm_num) le_rfl (by norm_num)⟩

/-! ## Claim C10: every candidate and the incumbent stay in the box -/

/-- The point held by the incumbent lies in the configured box. -/
def inBox (cfg : SAConfig) (s : SARun) : Prop :=
  cfg.xlb ≤ s.bestX ∧ s.bestX ≤ cfg.xub ∧ cfg.ylb ≤ s.bestY ∧ s.bestY ≤ cfg.yub

theorem uniformDraw_mem (lb ub r : ℝ) (hr0 : 0 ≤ r) (hr1 : r ≤ 1)
    (hlu : lb ≤ ub) : lb ≤ uniformDraw lb ub r ∧ uniformDraw lb ub r ≤ ub := by
  unfold uniformDraw
  constructor
  · nlinarith
  · nlinarith

theorem find_best_inBox (cfg : SAConfig) (T nx ny nv r : ℝ) (s : SARun)
    (hs : inBox cfg s) (hx0 : cfg.xlb ≤ nx) (hx1 : nx ≤ cfg.xub)
    (hy0 : cfg.ylb ≤ ny) (hy1 : ny ≤ cfg.yub) :
    inBox cfg (find_best T nx ny nv r s) := by
  unfold find_best
  split
  · exact ⟨hx0, hx1, hy0, hy1⟩
  · split
    · exact ⟨hx0, hx1, hy0, hy1⟩
    · exact hs

theorem saLoop_inBox (cfg : SAConfig) (f : ℝ → ℝ → ℝ)
    (hxlu : cfg.xlb ≤ cfg.xub) (hylu : cfg.ylb ≤ cfg.yub) :
    ∀ (fuel : ℕ) (T : ℝ) (s : SARun) (rand : ℕ → ℝ × ℝ × ℝ),
      inBox cfg s →
      (∀ i, 0 ≤ (rand i).1 ∧ (rand i).1 ≤ 1 ∧
        0 ≤ (rand i).2.1 ∧ (rand i).2.1 ≤ 1) →
      inBox cfg (saLoop cfg f rand fuel T s).state := by
  intro fuel
  induction fuel with
  | zero =>
    intro T s rand hs _
    simpa [saLoop] using hs
  | succ fl ih =>
    intro T s rand hs hrand
    simp only [saLoop]
    split
    · simp only [neighbourhood_search]
      refine ih _ _ (fun i => rand (i + 1)) ?_ (fun i => hrand (i + 1))
      exact find_best_inBox cfg _ _ _ _ _ s hs
        (uniformDraw_mem _ _ _ (hrand 0).1 (hrand 0).2.1 hxlu).1
        (uniformDraw_mem _ _ _ (hrand 0).1 (hrand 0).2.1 hxlu).2
        (uniformDraw_mem _ _ _ (hrand 0).2.2.1 (hrand 0).2.2.2 hylu).1
        (uniformDraw_mem _ _ _ (hrand 0).2.2.1 (hrand 0).2.2.2 hylu).2
    · exact hs

theorem saTimeLoop_inBox (cfg : SAConfig) (f : ℝ → ℝ → ℝ)
    (hxlu : cfg.xlb ≤ cfg.xub) (hylu : cfg.ylb ≤ cfg.yub) :
    ∀ (fuel : ℕ) (T elapsed : ℝ) (s : SARun) (rand : ℕ → ℝ × ℝ × ℝ)
      (clock : ℕ → ℝ) (timeStart : ℝ),
      inBox cfg s →
      (∀ i, 0 ≤ (rand i).1 ∧ (rand i).1 ≤ 1 ∧
        0 ≤ (rand i).2.1 ∧ (rand i).2.1 ≤ 1) →
      inBox cfg (saTimeLoop cfg f rand clock timeStart fuel T elapsed s).state := by
  intro fuel
  induction fuel with
  | zero =>
    intro T elapsed s rand clock timeStart hs _
    simpa [saTimeLoop] using hs
  | succ fl ih =>
    intro T elapsed s rand clock timeStart hs hrand
    simp only [saTimeLoop]
    split
    · simp only [neighbourhood_search]
      refine ih _ _ _ (fun i => rand (i + 1)) (fun i => clock (i + 1))
        timeStart ?_ (fun i => hrand (i + 1))
      exact find_best_inBox cfg _ _ _ _ _ s hs
        (uniformDraw_mem _ _ _ (hrand 0).1 (hrand 0).2.1 hxlu).1
        (uniformDraw_mem _ _ _ (hrand 0).1 (hrand 0).2.1 hxlu).2
        (uniformDraw_mem _ _ _ (hrand 0).2.2.1 (hrand 0).2.2.2 hylu).1
        (uniformDraw_mem _ _ _ (hrand 0).2.2.1 (hrand 0).2.2.2 hylu).2
    · exact hs

/-- Claim C10: throughout every run of SA.algorithm and of
SA.time_algorithm, every candidate point generated (the initial point
and each per-iteration candidate have coordinates produced by
uniformDraw between the normalized bounds, on both axes) and the
incumbent best solution lie inside
[min(xBounds), max(xBounds)] x [min(yBounds), max(yBounds)]; in
particular the best point returned by either run mode is inside the
configured box regardless of the order in which the bounds were given. -/
theorem sa_best_stays_in_bounds (xB yB : ℝ × ℝ) (Ti Tf : ℝ) (maxIter : ℕ)
    (maxTime : ℝ) (f : ℝ → ℝ → ℝ) (ir : ℝ × ℝ) (rand : ℕ → ℝ × ℝ × ℝ)
    (clock : ℕ → ℝ) (fuel : ℕ)
    (hir : 0 ≤ ir.1 ∧ ir.1 ≤ 1 ∧ 0 ≤ ir.2 ∧ ir.2 ≤ 1)
    (hrand : ∀ i, 0 ≤ (rand i).1 ∧ (rand i).1 ≤ 1 ∧
      0 ≤ (rand i).2.1 ∧ (rand i).2.1 ≤ 1) :
    (min xB.1 xB.2 ≤ (sa_algorithm (sa_config xB yB Ti Tf maxIter maxTime)
          f ir rand fuel).state.bestX ∧
        (sa_algorithm (sa_config xB yB Ti Tf maxIter maxTime)
          f ir rand fuel).state.bestX ≤ max xB.1 xB.2 ∧
        min yB.1 yB.2 ≤ (sa_algorithm (sa_config xB yB Ti Tf maxIter maxTime)
          f ir rand fuel).state.bestY ∧
        (sa_algorithm (sa_config xB yB Ti Tf maxIter maxTime)
          f ir rand fuel).state.bestY ≤ max yB.1 yB.2) ∧
      (min xB.1 xB.2 ≤ (sa_time_algorithm (sa_config xB yB Ti Tf maxIter
            maxTime) f ir rand clock fuel).state.bestX ∧
        (sa_time_algorithm (sa_config xB yB Ti Tf maxIter maxTime)
          f ir rand clock fuel).state.bestX ≤ max xB.1 xB.2 ∧
        min yB.1 yB.2 ≤ (sa_time_algorithm (sa_config xB yB Ti Tf maxIter
            maxTime) f ir rand clock fuel).state.bestY ∧
        (sa_time_algorithm (sa_config xB yB Ti Tf maxIter maxTime)
          f ir rand clock fuel).state.bestY ≤ max yB.1 yB.2) ∧
      ∀ r, 0 ≤ r → r ≤ 1 →
        (min xB.1 xB.2 ≤ uniformDraw (min xB.1 xB.2) (max xB.1 xB.2) r ∧
            uniformDraw (min xB.1 xB.2) (max xB.1 xB.2) r ≤ max xB.1 xB.2) ∧
          (min yB.1 yB.2 ≤ uniformDraw (min yB.1 yB.2) (max yB.1 yB.2) r ∧
            uniformDraw (min yB.1 yB.2) (max yB.1 yB.2) r ≤ max yB.1 yB.2) := by
  set cfg := sa_config xB yB Ti Tf maxIter maxTime with hcfg
  have hxlb : cfg.xlb = min xB.1 xB.2 := by simp [hcfg, sa_config]
  have hxub : cfg.xub = max xB.1 xB.2 := by simp [hcfg, sa_config]
  have hylb : cfg.ylb = min yB.1 yB.2 := by simp [hcfg, sa_config]
  have hyub : cfg.yub = max yB.1 yB.2 := by simp [hcfg, sa_config]
  have hxlu : cfg.xlb ≤ cfg.xub := by rw [hxlb, hxub]; exact min_le_max
  have hylu : cfg.ylb ≤ cfg.yub := by rw [hylb, hyub]; exact min_le_max
  have hs0 : inBox cfg (sa_initialise cfg f ir.1 ir.2) := by
    refine ⟨?_, ?_, ?_, ?_⟩
    · exact (uniformDraw_mem _ _ _ hir.1 hir.2.1 hxlu).1
    · exact (uniformDraw_mem _ _ _ hir.1 hir.2.1 hxlu).2
    · exact (uniformDraw_mem _ _ _ hir.2.2.1 hir.2.2.2 hylu).1
    · exact (uniformDraw_mem _ _ _ hir.2.2.1 hir.2.2.2 hylu).2
  refine ⟨?_, ?_, ?_⟩
  · have hloop := saLoop_inBox cfg f hxlu hylu fuel cfg.Ti0
      (sa_initialise cfg f ir.1 ir.2) rand hs0 hrand
    have hstate : (sa_algorithm cfg f ir rand fuel).state =
        (saLoop cfg f rand fuel cfg.Ti0
          (sa_initialise cfg f ir.1 ir.2)).state := rfl
    rw [hstate]
    obtain ⟨h1, h2, h3, h4⟩ := hloop
    rw [hxlb] at h1
    rw [hxub] at h2
    rw [hylb] at h3
    rw [hyub] at h4
    exact ⟨h1, h2, h3, h4⟩
  · have hloop := saTimeLoop_inBox cfg f hxlu hylu fuel cfg.Ti0 0
      (sa_initialise cfg f ir.1 ir.2) rand (fun i => clock (i + 1))
      (clock 0) hs0 hrand
    have hstate : (sa_time_algorithm cfg f ir rand clock fuel).state =
        (saTimeLoop cfg f rand (fun i => clock (i + 1)) (clock 0) fuel
          cfg.Ti0 0 (sa_initialise cfg f ir.1 ir.2)).state := rfl
    rw [hstate]
    obtain ⟨h1, h2, h3, h4⟩ := hloop
    rw [hxlb] at h1
    rw [hxub] at h2
    rw [hylb] at h3
    rw [hyub] at h4
    exact ⟨h1, h2, h3, h4⟩
  · intro r hr0 hr1
    exact ⟨uniformDraw_mem _ _ _ hr0 hr1 min_le_max,
      uniformDraw_mem _ _ _ hr0 hr1 min_le_max⟩

/-- Witness for the C10 theorem with the bounds given in reversed order
(xBounds = (3, -3), yBounds = (5, -5)), covering both run modes and
both axes. -/
theorem sa_best_stays_in_bounds_witness :
    ((0 : ℝ) ≤ 1 ∧ (1 : ℝ) ≤ 1 ∧ (0 : ℝ) ≤ 0 ∧ (0 : ℝ) ≤ 1) ∧
      ((min (3 : ℝ) (-3) ≤ (sa_algorithm (sa_config (3, -3) (5, -5) 1 (1 / 2)
            1 100) (fun x y => x + y) (1, 0) (fun _ => (1, 1 / 2, 0))
            2).state.bestX ∧
          (sa_algorithm (sa_config (3, -3) (5, -5) 1 (1 / 2) 1 100)
            (fun x y => x + y) (1, 0) (fun _ => (1, 1 / 2, 0))
            2).state.bestX ≤ max (3 : ℝ) (-3) ∧
          min (5 : ℝ) (-5) ≤ (sa_algorithm (sa_config (3, -3) (5, -5) 1 (1 / 2)
            1 100) (fun x y => x + y) (1, 0) (fun _ => (1, 1 / 2, 0))
            2).state.bestY ∧
          (sa_algorithm (sa_config (3, -3) (5, -5) 1 (1 / 2) 1 100)
            (fun x y => x + y) (1, 0) (fun _ => (1, 1 / 2, 0))
            2).state.bestY ≤ max (5 : ℝ) (-5)) ∧
        (min (3 : ℝ) (-3) ≤ (sa_time_algorithm (sa_config (3, -3) (5, -5) 1
            (1 / 2) 1 100) (fun x y => x + y) (1, 0) (fun _ => (1, 1 / 2, 0))
            (fun _ => 0) 2).state.bestX ∧
          (sa_time_algorithm (sa_config (3, -3) (5, -5) 1 (1 / 2) 1 100)
            (fun x y => x + y) (1, 0) (fun _ => (1, 1 / 2, 0))
            (fun _ => 0) 2).state.bestX ≤ max (3 : ℝ) (-3) ∧
          min (5 : ℝ) (-5) ≤ (sa_time_algorithm (sa_config (3, -3) (5, -5) 1
            (1 / 2) 1 100) (fun x y => x + y) (1, 0) (fun _ => (1, 1 / 2, 0))
            (fun _ => 0) 2).state.bestY ∧
          (sa_time_algorithm (sa_config (3, -3) (5, -5) 1 (1 / 2) 1 100)
            (fun x y => x + y) (1, 0) (fun _ => (1, 1 / 2, 0))
            (fun _ => 0) 2).state.bestY ≤ max (5 : ℝ) (-5)) ∧
        ∀ r, 0 ≤ r → r ≤ 1 →
          ((min (3 : ℝ) (-3) ≤ uniformDraw (min (3 : ℝ) (-3))
              (max (3 : ℝ) (-3)) r ∧
            uniformDraw (min (3 : ℝ) (-3)) (max (3 : ℝ) (-3)) r ≤
              max (3 : ℝ) (-3)) ∧
          (min (5 : ℝ) (-5) ≤ uniformDraw (min (5 : ℝ) (-5))
              (max (5 : ℝ) (-5)) r ∧
            uniformDraw (min (5 : ℝ) (-5)) (max (5 : ℝ) (-5)) r ≤
              max (5 : ℝ) (-5)))) :=
  ⟨⟨by norm_num, by norm_num, by norm_num, by norm_num⟩,
    sa_best_stays_in_bounds (3, -3) (5, -5) 1 (1 / 2) 1 100
      (fun x y => x + y) (1, 0) (fun _ => (1, 1 / 2, 0)) (fun _ => 0) 2
      ⟨by norm_num, by norm_num, by norm_num, by norm_num⟩
      (fun _ => ⟨by norm_num, by norm_num, by norm_num, by norm_num⟩)⟩
